import Mathlib

/-!
Shallow embedding of the session/token lifecycle core of the cryptotalks
monorepo: the `AuthService` of the auth-api service
(`generateAccessToken`, `generateRefreshToken`, `updateRefreshToken`,
`verifyToken`, `getTokenById`, `updateTokens`, `refreshToken`,
`deleteRefreshToken`), together with the JWT codec semantics of the
`jsonwebtoken` library it delegates to, and the Kafka-based RPC emulation
used by `refreshToken` to fetch user details.

Time is modelled as a natural-number clock, the session table as a list of
rows, the database row-id sequence and the uuid generator as counters
threaded through an explicit state.  Every repository call is recorded in
an operation log so that claims about the absence of storage access are
statable.
-/

/-- Payload signed into a JWT by the service: `generateAccessToken` signs
`{userId, email, type: "access"}`, `generateRefreshToken` signs
`{id, type: "refresh"}`.  The constructor is the `type` discriminator. -/
inductive TokenPayload where
  | access (userId email : String)
  | refresh (id : String)
deriving DecidableEq, Repr

/-- A well-formed signed JWT: payload, issued-at, expiry (`iat + ttl`), and
the secret it was signed with.  Signature validity at verification time is
modelled as equality of this secret with the verifier's secret. -/
structure Jwt where
  payload : TokenPayload
  iat : Nat
  exp : Nat
  secret : String
deriving DecidableEq, Repr

/-- A token string as presented to the service: the empty string (falsy in
JS, caught by the `!tokenRefresh` guard), an unparsable string, or a
structurally well-formed signed JWT. -/
inductive TokenStr where
  | empty
  | malformed (s : String)
  | signed (j : Jwt)
deriving DecidableEq, Repr

/-- Errors raised by `jsonwebtoken`'s `verify`: `TokenExpiredError`
(signature valid, past expiry) and `JsonWebTokenError` (bad signature or
unparsable structure, including the empty string). -/
inductive JwtError where
  | tokenExpired
  | jsonWebToken
deriving DecidableEq, Repr

/-- Semantics of `jsonwebtoken.sign` with `expiresIn = ttl`: embeds
`iat = now` and `exp = now + ttl` and signs with the given secret. -/
def jwtSign (secret : String) (now ttl : Nat) (payload : TokenPayload) : TokenStr :=
  TokenStr.signed { payload := payload, iat := now, exp := now + ttl, secret := secret }

/-- Semantics of `jsonwebtoken.verify`: the structure is parsed and the
signature checked first (`JsonWebTokenError` on failure), then expiry is
enforced — the token is expired when the clock is at or past `exp`. -/
def jwtVerify (secret : String) (now : Nat) : TokenStr → Except JwtError TokenPayload
  | TokenStr.empty => Except.error JwtError.jsonWebToken
  | TokenStr.malformed _ => Except.error JwtError.jsonWebToken
  | TokenStr.signed j =>
    if j.secret ≠ secret then Except.error JwtError.jsonWebToken
    else if j.exp ≤ now then Except.error JwtError.tokenExpired
    else Except.ok j.payload

/-- Domain exceptions of the auth service.  In the spec's taxonomy,
`expiredToken` is `TokenExpired`, `invalidToken` is `TokenMalformed`, and
`corruptedToken` (thrown on an empty/absent token) is `MissingToken`.
`sessionHasExpired` is the catch-all `else` branch of `verifyToken`,
unreachable for the two error classes `jsonwebtoken.verify` raises.
No `WrongKind` exception exists in the source. -/
inductive AuthException where
  | expiredToken
  | invalidToken
  | sessionHasExpired
  | corruptedToken
deriving DecidableEq, Repr

/-- A Session row: database row id, owning user id, and the refresh-token
uuid stored as `tokenId`. -/
structure Session where
  id : Nat
  userId : String
  tokenId : String
deriving DecidableEq, Repr

/-- A repository (storage) operation, recorded so that claims about the
absence of storage access can be stated. -/
inductive StorageOp where
  | findOneByUserId (userId : String)
  | findOneByTokenId (tokenId : Option String)
  | destroyById (id : Nat)
  | destroyByUserId (userId : String)
  | create (userId tokenId : String)
deriving DecidableEq, Repr

/-- An RPC call issued over the Kafka client.  `timeoutMs` records the
timeout operator applied to the observable pipeline; the source applies
none. -/
structure RpcCall where
  topic : String
  timeoutMs : Option Nat
deriving DecidableEq, Repr

/-- State threaded through the service: the session table, the database
row-id sequence, the uuid-generator counter, the log of storage
operations, and the RPC calls issued. -/
structure AuthState where
  sessions : List Session
  nextId : Nat
  nextUuid : Nat
  log : List StorageOp
  rpcCalls : List RpcCall
deriving DecidableEq, Repr

/-- Deterministic stand-in for `uuid.v4()`: the `n`-th fresh uuid. -/
def mkUuid (n : Nat) : String := "uuid-" ++ toString n

/-- `sessionRepository.findOne({ where: { userId } })`. -/
def sessionFindOneByUserId (userId : String) (st : AuthState) :
    Option Session × AuthState :=
  (st.sessions.find? (fun s => s.userId == userId),
   { st with log := st.log ++ [StorageOp.findOneByUserId userId] })

/-- `sessionRepository.destroy({ where: { id } })`. -/
def sessionDestroyById (id : Nat) (st : AuthState) : AuthState :=
  { st with sessions := st.sessions.filter (fun s => s.id != id),
            log := st.log ++ [StorageOp.destroyById id] }

/-- `sessionRepository.create({ userId, tokenId })`: the row id is assigned
by the database sequence. -/
def sessionCreate (userId tokenId : String) (st : AuthState) :
    Session × AuthState :=
  let s : Session := { id := st.nextId, userId := userId, tokenId := tokenId }
  (s, { st with sessions := st.sessions ++ [s], nextId := st.nextId + 1,
                log := st.log ++ [StorageOp.create userId tokenId] })

/-- `sessionRepository.findOne({ where: { tokenId } })`; the key is
`Option String` because `refreshToken` passes `payload.id`, which is
`undefined` when the payload carries no `id` field, and no stored row
matches an absent key. -/
def sessionFindOneByTokenId (tokenId : Option String) (st : AuthState) :
    Option Session × AuthState :=
  (st.sessions.find? (fun s => some s.tokenId == tokenId),
   { st with log := st.log ++ [StorageOp.findOneByTokenId tokenId] })

/-- `sessionRepository.destroy({ where: { userId } })`, returning the
number of rows destroyed (sequelize's `destroy` return value). -/
def sessionDestroyByUserId (userId : String) (st : AuthState) :
    Nat × AuthState :=
  ((st.sessions.filter (fun s => s.userId == userId)).length,
   { st with sessions := st.sessions.filter (fun s => s.userId != userId),
             log := st.log ++ [StorageOp.destroyByUserId userId] })

/-- Configuration `jwtAuthConfig`: shared secret and per-kind TTLs. -/
structure JwtAuthConfig where
  secret : String
  accessExpiresIn : Nat
  refreshExpiresIn : Nat
deriving DecidableEq, Repr

/-- Payload of `generateAccessToken` (`AccessTokenDto`). -/
structure AccessTokenDto where
  userId : String
  email : String
deriving DecidableEq, Repr

/-- Payload of `updateRefreshToken` (`RefreshTokenDto`). -/
structure RefreshTokenDto where
  userId : String
  tokenId : String
deriving DecidableEq, Repr

/-- The `{ _at, _rt }` pair produced by `updateTokens`. -/
structure TokenPair where
  _at : TokenStr
  _rt : TokenStr
deriving DecidableEq, Repr

/-- `AuthService.generateAccessToken`: signs
`{userId, email, type: "access"}` with `expiresIn = accessExpiresIn`. -/
def generateAccessToken (cfg : JwtAuthConfig) (now : Nat)
    (accessTokenPayload : AccessTokenDto) : TokenStr :=
  jwtSign cfg.secret now cfg.accessExpiresIn
    (TokenPayload.access accessTokenPayload.userId accessTokenPayload.email)

/-- `AuthService.generateRefreshToken`: draws a fresh uuid `id`, signs
`{id, type: "refresh"}` with `expiresIn = refreshExpiresIn`, and returns
`{ id, token }`. -/
def generateRefreshToken (cfg : JwtAuthConfig) (now : Nat) (st : AuthState) :
    (String × TokenStr) × AuthState :=
  let id := mkUuid st.nextUuid
  ((id, jwtSign cfg.secret now cfg.refreshExpiresIn (TokenPayload.refresh id)),
   { st with nextUuid := st.nextUuid + 1 })

/-- `AuthService.updateRefreshToken`: finds the user's current session,
destroys it by row id when present, then creates the new session row. -/
def updateRefreshToken (refreshTokenPayload : RefreshTokenDto) (st : AuthState) :
    Session × AuthState :=
  let found := sessionFindOneByUserId refreshTokenPayload.userId st
  let st2 := match found.1 with
    | some currentSession => sessionDestroyById currentSession.id found.2
    | none => found.2
  sessionCreate refreshTokenPayload.userId refreshTokenPayload.tokenId st2

/-- `AuthService.verifyToken`: delegates to `jsonwebtoken.verify` with the
shared secret and maps `TokenExpiredError` to `ExpiredTokenException`
(`expiredToken`) and `JsonWebTokenError` to `InvalidTokenException`
(`invalidToken`).  No expected-kind argument exists and the payload's
`type` discriminator is never inspected. -/
def verifyToken (cfg : JwtAuthConfig) (now : Nat) (token : TokenStr) :
    Except AuthException TokenPayload :=
  match jwtVerify cfg.secret now token with
  | Except.ok p => Except.ok p
  | Except.error JwtError.tokenExpired => Except.error AuthException.expiredToken
  | Except.error JwtError.jsonWebToken => Except.error AuthException.invalidToken

/-- `AuthService.getTokenById`: looks a session up by its `tokenId`. -/
def getTokenById (tokenId : Option String) (st : AuthState) :
    Option Session × AuthState :=
  sessionFindOneByTokenId tokenId st

/-- `AuthService.updateTokens`: generates the access token, the refresh
token (with its fresh uuid), rotates the session row via
`updateRefreshToken`, and returns `{ _at, _rt }`. -/
def updateTokens (cfg : JwtAuthConfig) (now : Nat)
    (accessTokenPayload : AccessTokenDto) (st : AuthState) :
    TokenPair × AuthState :=
  let accessToken := generateAccessToken cfg now accessTokenPayload
  let gen := generateRefreshToken cfg now st
  let rotated := updateRefreshToken
    { userId := accessTokenPayload.userId, tokenId := gen.1.1 } gen.2
  ({ _at := accessToken, _rt := gen.1.2 }, rotated.2)

/-- The `type` field of `TokenPayloadDto` accessed as `payload.id` in
`refreshToken`: an access payload has no `id` field (`undefined`). -/
def payloadIdField : TokenPayload → Option String
  | TokenPayload.access _ _ => none
  | TokenPayload.refresh i => some i

/-- The user object delivered on the reply topic of the `get_user_by_id`
request. -/
structure RpcUser where
  id : String
  email : String
deriving DecidableEq, Repr

/-- Outcome of the bus for the `get_user_by_id` request issued during
`refreshToken`: either a user reply arrives and the subscription callback
runs, or no reply ever arrives and the callback never runs. -/
inductive RpcReply where
  | reply (u : RpcUser)
  | noReply
deriving DecidableEq, Repr

/-- The observable pipeline `userClient.send("get_user_by_id", {})` as
built by `refreshToken`: no timeout operator is applied. -/
def getUserByIdCall : RpcCall := { topic := "get_user_by_id", timeoutMs := none }

/-- `AuthService.refreshToken`: throws `CorruptedTokenException` on an
empty token, verifies the token, looks the session up by the payload's
`id` (the result is never used), then subscribes to the `get_user_by_id`
reply.  When the reply arrives the callback rotates the tokens via
`updateTokens`, but the pair it builds is returned from the subscription
callback, not from `refreshToken` itself, so the function's own result
carries no pair (`Option TokenPair` is always `none` on success). -/
def refreshToken (cfg : JwtAuthConfig) (now : Nat) (tokenRefresh : TokenStr)
    (reply : RpcReply) (st : AuthState) :
    Except AuthException (Option TokenPair) × AuthState :=
  if tokenRefresh = TokenStr.empty then
    (Except.error AuthException.corruptedToken, st)
  else
    match verifyToken cfg now tokenRefresh with
    | Except.error e => (Except.error e, st)
    | Except.ok payload =>
      let looked := getTokenById (payloadIdField payload) st
      let st2 := { looked.2 with rpcCalls := looked.2.rpcCalls ++ [getUserByIdCall] }
      match reply with
      | RpcReply.reply u =>
        let rotated := updateTokens cfg now { userId := u.id, email := u.email } st2
        (Except.ok none, rotated.2)
      | RpcReply.noReply => (Except.ok none, st2)

/-- `AuthService.deleteRefreshToken`: destroys the user's session rows by
`userId`, returning the count destroyed. -/
def deleteRefreshToken (userId : String) (st : AuthState) : Nat × AuthState :=
  sessionDestroyByUserId userId st

/-- An operation of the token lifecycle state machine, tagged with the
clock value at which it runs: token issuance (`updateTokens`) or refresh
(`refreshToken`). -/
inductive AuthOp where
  | issue (now : Nat) (p : AccessTokenDto)
  | refreshOp (now : Nat) (tok : TokenStr) (reply : RpcReply)
deriving DecidableEq, Repr

/-- Run one lifecycle operation, keeping only the state. -/
def runOp (cfg : JwtAuthConfig) (op : AuthOp) (st : AuthState) : AuthState :=
  match op with
  | AuthOp.issue now p => (updateTokens cfg now p st).2
  | AuthOp.refreshOp now tok reply => (refreshToken cfg now tok reply st).2

/-- Run a finite sequence of lifecycle operations. -/
def runOps (cfg : JwtAuthConfig) (ops : List AuthOp) (st : AuthState) : AuthState :=
  ops.foldl (fun s op => runOp cfg op s) st

/-- Number of session rows owned by user `u`. -/
def sessionsFor (u : String) (l : List Session) : Nat :=
  l.countP (fun s => s.userId == u)

/-- The single-active-session invariant: at most one session row per user. -/
def sessionInv (st : AuthState) : Prop :=
  ∀ u, sessionsFor u st.sessions ≤ 1

/-- Outcome of an RPC call after `elapsed` time units during which no
reply arrives: with a timeout configured the call resolves to a timeout
failure once the bound passes; without one it stays pending. -/
inductive RpcOutcome where
  | pending
  | timedOut
deriving DecidableEq, Repr

/-- Resolution of a pending RPC call with no reply after `elapsed` time. -/
def rpcOutcomeNoReply (c : RpcCall) (elapsed : Nat) : RpcOutcome :=
  match c.timeoutMs with
  | some t => if t ≤ elapsed then RpcOutcome.timedOut else RpcOutcome.pending
  | none => RpcOutcome.pending

deriving instance DecidableEq for Except

/-- Concrete configuration used by the concrete scenarios. -/
def cfg0 : JwtAuthConfig :=
  { secret := "s3cret", accessExpiresIn := 10, refreshExpiresIn := 100 }

/-- Concrete initial state: empty session table, counters at zero. -/
def st0 : AuthState :=
  { sessions := [], nextId := 0, nextUuid := 0, log := [], rpcCalls := [] }

/-- The scenario of §8 of the spec: issue tokens for `u1` at time 0. -/
def issued0 : TokenPair × AuthState :=
  updateTokens cfg0 0 { userId := "u1", email := "a@x.com" } st0

example : issued0.2.sessions = [{ id := 0, userId := "u1", tokenId := "uuid-0" }] := by
  decide

example : (refreshToken cfg0 1 issued0.1._rt (RpcReply.reply { id := "u1", email := "a@x.com" })
    issued0.2).1 = Except.ok none := by decide

/-- Two distinct members both satisfying a predicate force a count of at
least two. -/
lemma two_le_countP {α} {p : α → Bool} {l : List α} {a b : α}
    (ha : a ∈ l) (hb : b ∈ l) (hab : a ≠ b)
    (hpa : p a = true) (hpb : p b = true) : 2 ≤ l.countP p := by
  induction l with
  | nil => cases ha
  | cons x xs ih =>
    rcases List.mem_cons.mp ha with hax | hax
    · rcases List.mem_cons.mp hb with hbx | hbx
      · exact absurd (hax.trans hbx.symm) hab
      · have h1 : 0 < xs.countP p :=
          List.countP_pos_iff.mpr ⟨b, hbx, hpb⟩
        rw [List.countP_cons_of_pos _ _ (hax ▸ hpa)]
        omega
    · rcases List.mem_cons.mp hb with hbx | hbx
      · have h1 : 0 < xs.countP p :=
          List.countP_pos_iff.mpr ⟨a, hax, hpa⟩
        rw [List.countP_cons_of_pos _ _ (hbx ▸ hpb)]
        omega
      · have h2 := ih hax hbx
        have h3 := List.countP_cons p x xs
        omega

/-- If a list holds at most one row satisfying `q` and `c` is such a row,
then after filtering away the rows sharing `c`'s id no row satisfying `q`
remains. -/
lemma countP_erase_eq_zero {l : List Session} {c : Session} {q : Session → Bool}
    (hc : c ∈ l) (hqc : q c = true) (hle : l.countP q ≤ 1) :
    (l.filter (fun s => s.id != c.id)).countP q = 0 := by
  rw [List.countP_eq_zero]
  intro s hs hqs
  have hmem := List.mem_filter.mp hs
  have hne : s ≠ c := by
    intro h
    rw [h] at hmem
    simp at hmem
  have := two_le_countP hmem.1 hc hne hqs hqc
  omega

/-- The session table produced by `updateRefreshToken` when the user has
no current session: the new row is appended. -/
lemma updateRefreshToken_sessions_none {p : RefreshTokenDto} {st : AuthState}
    (hfind : st.sessions.find? (fun s => s.userId == p.userId) = none) :
    (updateRefreshToken p st).2.sessions =
      st.sessions ++ [{ id := st.nextId, userId := p.userId, tokenId := p.tokenId }] := by
  simp [updateRefreshToken, sessionFindOneByUserId, sessionCreate, hfind]

/-- The session table produced by `updateRefreshToken` when the user has a
current session `c`: rows with `c`'s id are destroyed, then the new row is
appended. -/
lemma updateRefreshToken_sessions_some {p : RefreshTokenDto} {st : AuthState} {c : Session}
    (hfind : st.sessions.find? (fun s => s.userId == p.userId) = some c) :
    (updateRefreshToken p st).2.sessions =
      st.sessions.filter (fun s => s.id != c.id) ++
        [{ id := st.nextId, userId := p.userId, tokenId := p.tokenId }] := by
  simp [updateRefreshToken, sessionFindOneByUserId, sessionDestroyById, sessionCreate, hfind]

/-- `updateRefreshToken` preserves the single-session invariant. -/
lemma updateRefreshToken_inv (p : RefreshTokenDto) (st : AuthState)
    (h : sessionInv st) : sessionInv (updateRefreshToken p st).2 := by
  intro u
  unfold sessionsFor
  cases hfind : st.sessions.find? (fun s => s.userId == p.userId) with
  | none =>
    rw [updateRefreshToken_sessions_none hfind, List.countP_append]
    by_cases hu : p.userId = u
    · have hz : st.sessions.countP (fun s => s.userId == u) = 0 := by
        rw [List.countP_eq_zero]
        intro s hs
        have := List.find?_eq_none.mp hfind s hs
        simpa [hu] using this
      simp [hz, hu]
    · have hbu : (p.userId == u) = false := by
        simpa using hu
      have := h u
      unfold sessionsFor at this
      simp [hbu]
      omega
  | some c =>
    rw [updateRefreshToken_sessions_some hfind, List.countP_append]
    by_cases hu : p.userId = u
    · have hz : (st.sessions.filter (fun s => s.id != c.id)).countP
          (fun s => s.userId == u) = 0 := by
        refine countP_erase_eq_zero (List.mem_of_find?_eq_some hfind) ?_ ?_
        · have := List.find?_some hfind
          simpa [hu] using this
        · have := h u
          unfold sessionsFor at this
          exact this
      simp [hz, hu]
    · have hbu : (p.userId == u) = false := by
        simpa using hu
      have hle : (st.sessions.filter (fun s => s.id != c.id)).countP
          (fun s => s.userId == u) ≤ st.sessions.countP (fun s => s.userId == u) :=
        (List.filter_sublist st.sessions).countP_le _
      have := h u
      unfold sessionsFor at this
      simp [hbu]
      omega

/-- `sessionInv` depends only on the session table. -/
lemma sessionInv_of_sessions_eq {st st2 : AuthState}
    (h : st.sessions = st2.sessions) : sessionInv st → sessionInv st2 := by
  intro hinv u
  have := hinv u
  unfold sessionsFor at this ⊢
  rw [← h]
  exact this

/-- `updateTokens` preserves the single-session invariant. -/
lemma updateTokens_inv (cfg : JwtAuthConfig) (now : Nat) (p : AccessTokenDto)
    (st : AuthState) (h : sessionInv st) : sessionInv (updateTokens cfg now p st).2 := by
  unfold updateTokens
  refine updateRefreshToken_inv _ _ ?_
  exact sessionInv_of_sessions_eq (by simp [generateRefreshToken]) h

/-- `refreshToken` preserves the single-session invariant. -/
lemma refreshToken_inv (cfg : JwtAuthConfig) (now : Nat) (tok : TokenStr)
    (reply : RpcReply) (st : AuthState) (h : sessionInv st) :
    sessionInv (refreshToken cfg now tok reply st).2 := by
  unfold refreshToken
  by_cases he : tok = TokenStr.empty
  · simpa [he] using h
  · simp only [he]
    cases hv : verifyToken cfg now tok with
    | error e => simpa using h
    | ok payload =>
      simp only
      cases reply with
      | reply u =>
        simp only
        refine updateTokens_inv _ _ _ _ ?_
        exact sessionInv_of_sessions_eq
          (by simp [getTokenById, sessionFindOneByTokenId]) h
      | noReply =>
        simp only
        exact sessionInv_of_sessions_eq
          (by simp [getTokenById, sessionFindOneByTokenId]) h

/-- A single lifecycle operation preserves the single-session invariant. -/
lemma runOp_inv (cfg : JwtAuthConfig) (op : AuthOp) (st : AuthState)
    (h : sessionInv st) : sessionInv (runOp cfg op st) := by
  cases op with
  | issue now p => exact updateTokens_inv cfg now p st h
  | refreshOp now tok reply => exact refreshToken_inv cfg now tok reply st h

/-- C1: for every user, after any finite sequence of `issueTokenPair`
(`updateTokens`) and `refresh` (`refreshToken`) operations starting from a
state satisfying it, at most one Session row exists for that user:
`updateRefreshToken` always deletes the user's existing session (when
present) before creating the new one. -/
theorem C1_single_session_invariant (cfg : JwtAuthConfig) (ops : List AuthOp)
    (st : AuthState) (h : sessionInv st) : sessionInv (runOps cfg ops st) := by
  induction ops generalizing st with
  | nil => simpa [runOps] using h
  | cons op rest ih =>
    have hstep : runOps cfg (op :: rest) st = runOps cfg rest (runOp cfg op st) := by
      simp [runOps]
    rw [hstep]
    exact ih _ (runOp_inv cfg op st h)

/-- A well-signed token that has not reached its expiry verifies to its
payload, whatever the embedded kind discriminator is. -/
lemma verifyToken_signed_ok {cfg : JwtAuthConfig} {now : Nat} {j : Jwt}
    (hs : j.secret = cfg.secret) (hexp : now < j.exp) :
    verifyToken cfg now (TokenStr.signed j) = Except.ok j.payload := by
  have h2 : ¬ (j.exp ≤ now) := by omega
  unfold verifyToken jwtVerify
  simp [hs, h2]

/-- The refresh-token JWT produced by the concrete §8 scenario `issued0`. -/
def jwt0 : Jwt :=
  { payload := TokenPayload.refresh "uuid-0", iat := 0, exp := 100, secret := "s3cret" }

/-- An access-token JWT under the concrete configuration `cfg0`. -/
def jwtAcc0 : Jwt :=
  { payload := TokenPayload.access "u1" "a@x.com", iat := 0, exp := 10, secret := "s3cret" }

/-- C5: token verification fails with `TokenExpired` (`expiredToken`)
exactly when the signature is valid and the clock is at or past the
embedded expiry, fails with `TokenMalformed` (`invalidToken`) exactly when
the signature is invalid or the structure cannot be parsed, and otherwise
succeeds returning the typed payload; a token issued with `ttl = T`
verifies at `now = issuedAt + T - 1` and fails with `TokenExpired` at
`now = issuedAt + T + 1`. -/
theorem C5_verify_error_taxonomy (cfg : JwtAuthConfig) (now : Nat) (j : Jwt)
    (s : String) (t T : Nat) (p : TokenPayload) (hT : 0 < T) :
    (verifyToken cfg now (TokenStr.signed j) = Except.error AuthException.expiredToken ↔
      j.secret = cfg.secret ∧ j.exp ≤ now) ∧
    (verifyToken cfg now (TokenStr.signed j) = Except.error AuthException.invalidToken ↔
      j.secret ≠ cfg.secret) ∧
    (verifyToken cfg now (TokenStr.malformed s) = Except.error AuthException.invalidToken) ∧
    (verifyToken cfg now TokenStr.empty = Except.error AuthException.invalidToken) ∧
    (verifyToken cfg now (TokenStr.signed j) = Except.ok j.payload ↔
      j.secret = cfg.secret ∧ now < j.exp) ∧
    (verifyToken cfg (t + T - 1) (jwtSign cfg.secret t T p) = Except.ok p) ∧
    (verifyToken cfg (t + T + 1) (jwtSign cfg.secret t T p) =
      Except.error AuthException.expiredToken) := by
  have hb1 : ¬ (t + T ≤ t + T - 1) := by omega
  have hb2 : t + T ≤ t + T + 1 := by omega
  refine ⟨?_, ?_, ?_, ?_, ?_, ?_, ?_⟩
  · unfold verifyToken jwtVerify
    by_cases hs : j.secret = cfg.secret <;> by_cases he : j.exp ≤ now
    all_goals simp [hs, he]
  · unfold verifyToken jwtVerify
    by_cases hs : j.secret = cfg.secret <;> by_cases he : j.exp ≤ now
    all_goals simp [hs, he]
  · unfold verifyToken jwtVerify
    simp
  · unfold verifyToken jwtVerify
    simp
  · unfold verifyToken jwtVerify
    by_cases hs : j.secret = cfg.secret <;> by_cases he : j.exp ≤ now
    all_goals first
      | (simp [hs, he]; omega)
      | simp [hs, he]
  · unfold verifyToken jwtVerify jwtSign
    simp [hb1]
  · unfold verifyToken jwtVerify jwtSign
    simp [hb2]

/-- Witness for C5 at the concrete configuration `cfg0`, the concrete
signed JWT `jwt0`, a malformed string, and the boundary pair
`issuedAt = 0, T = 10`. -/
theorem C5_verify_error_taxonomy_witness :
    (0 : Nat) < 10 ∧
    ((verifyToken cfg0 5 (TokenStr.signed jwt0) = Except.error AuthException.expiredToken ↔
        jwt0.secret = cfg0.secret ∧ jwt0.exp ≤ 5) ∧
      (verifyToken cfg0 5 (TokenStr.signed jwt0) = Except.error AuthException.invalidToken ↔
        jwt0.secret ≠ cfg0.secret) ∧
      (verifyToken cfg0 5 (TokenStr.malformed "xx") = Except.error AuthException.invalidToken) ∧
      (verifyToken cfg0 5 TokenStr.empty = Except.error AuthException.invalidToken) ∧
      (verifyToken cfg0 5 (TokenStr.signed jwt0) = Except.ok jwt0.payload ↔
        jwt0.secret = cfg0.secret ∧ 5 < jwt0.exp) ∧
      (verifyToken cfg0 (0 + 10 - 1)
          (jwtSign cfg0.secret 0 10 (TokenPayload.access "u1" "a@x.com")) =
        Except.ok (TokenPayload.access "u1" "a@x.com")) ∧
      (verifyToken cfg0 (0 + 10 + 1)
          (jwtSign cfg0.secret 0 10 (TokenPayload.access "u1" "a@x.com")) =
        Except.error AuthException.expiredToken)) :=
  ⟨by decide,
   C5_verify_error_taxonomy cfg0 5 jwt0 "xx" 0 10
     (TokenPayload.access "u1" "a@x.com") (by decide)⟩

/-- C3 counterexample: a token issued as `access` does not fail with any
`WrongKind` error when presented to the verification that `refreshToken`
applies to refresh credentials — it verifies successfully, and likewise a
`refresh` token passes verification where an access token would be
expected.  The domain taxonomy (`AuthException`) has no `WrongKind`
constructor at all. -/
theorem C3_counterexample :
    verifyToken cfg0 1 (generateAccessToken cfg0 0 { userId := "u1", email := "a@x.com" }) =
      Except.ok (TokenPayload.access "u1" "a@x.com") ∧
    verifyToken cfg0 1 (generateRefreshToken cfg0 0 st0).1.2 =
      Except.ok (TokenPayload.refresh "uuid-0") := by decide

/-- C3 amended: tokens embed a kind discriminator (`type`) in their
payload at issuance, but `verifyToken` takes no expected kind and never
inspects it: every well-signed, unexpired token verifies successfully to
its payload regardless of kind, so no `WrongKind` rejection occurs
anywhere. -/
theorem C3_no_kind_isolation (cfg : JwtAuthConfig) (now : Nat) (j : Jwt)
    (hs : j.secret = cfg.secret) (hexp : now < j.exp) :
    verifyToken cfg now (TokenStr.signed j) = Except.ok j.payload :=
  verifyToken_signed_ok hs hexp

/-- Witness for the amended C3 at the concrete access-token JWT
`jwtAcc0`, presented at time 1 where `refreshToken` would expect a
refresh credential. -/
theorem C3_no_kind_isolation_witness :
    jwtAcc0.secret = cfg0.secret ∧ 1 < jwtAcc0.exp ∧
    verifyToken cfg0 1 (TokenStr.signed jwtAcc0) =
      Except.ok (TokenPayload.access "u1" "a@x.com") :=
  ⟨by decide, by decide, C3_no_kind_isolation cfg0 1 jwtAcc0 (by decide) (by decide)⟩

/-- C7: verifying a token immediately after issuance returns exactly the
payload supplied at issuance, for both kinds, any payload, and any
positive TTL, under the same shared secret. -/
theorem C7_issue_verify_round_trip (cfg : JwtAuthConfig) (now : Nat)
    (p : AccessTokenDto) (st : AuthState)
    (ha : 0 < cfg.accessExpiresIn) (hr : 0 < cfg.refreshExpiresIn) :
    verifyToken cfg now (generateAccessToken cfg now p) =
      Except.ok (TokenPayload.access p.userId p.email) ∧
    verifyToken cfg now ((generateRefreshToken cfg now st).1.2) =
      Except.ok (TokenPayload.refresh (generateRefreshToken cfg now st).1.1) := by
  have h1 : ¬ (now + cfg.accessExpiresIn ≤ now) := by omega
  have h2 : ¬ (now + cfg.refreshExpiresIn ≤ now) := by omega
  constructor
  · unfold generateAccessToken verifyToken jwtVerify jwtSign
    simp [h1]
  · unfold generateRefreshToken verifyToken jwtVerify jwtSign
    simp [h2]

/-- Witness for C7 at the concrete configuration `cfg0` (TTLs 10 and
100), user `u1`, and the empty initial state. -/
theorem C7_issue_verify_round_trip_witness :
    (0 : Nat) < cfg0.accessExpiresIn ∧ (0 : Nat) < cfg0.refreshExpiresIn ∧
    (verifyToken cfg0 3 (generateAccessToken cfg0 3 { userId := "u1", email := "a@x.com" }) =
      Except.ok (TokenPayload.access "u1" "a@x.com") ∧
    verifyToken cfg0 3 ((generateRefreshToken cfg0 3 st0).1.2) =
      Except.ok (TokenPayload.refresh (generateRefreshToken cfg0 3 st0).1.1)) :=
  ⟨by decide, by decide,
   C7_issue_verify_round_trip cfg0 3 { userId := "u1", email := "a@x.com" } st0
     (by decide) (by decide)⟩

/-- C6: `refreshToken` on the empty (absent) token fails immediately with
`CorruptedTokenException` — the error the spec's taxonomy names
`MissingToken` — and returns the state entirely unchanged: no storage
operation is logged, no session row is read, created or deleted, and no
RPC call is issued. -/
theorem C6_empty_refresh_no_storage_access (cfg : JwtAuthConfig) (now : Nat)
    (reply : RpcReply) (st : AuthState) :
    refreshToken cfg now TokenStr.empty reply st =
      (Except.error AuthException.corruptedToken, st) := by
  unfold refreshToken
  simp

/-- `updateTokens` unfolds to `updateRefreshToken` on the state whose uuid
counter has advanced, with the fresh uuid as the new `tokenId`. -/
lemma updateTokens_state_eq (cfg : JwtAuthConfig) (now : Nat) (p : AccessTokenDto)
    (st : AuthState) :
    (updateTokens cfg now p st).2 =
      (updateRefreshToken { userId := p.userId, tokenId := mkUuid st.nextUuid }
        { st with nextUuid := st.nextUuid + 1 }).2 := rfl

/-- The session table produced by `updateRefreshToken` depends only on the
input table and the row-id counter. -/
lemma updateRefreshToken_sessions_congr (p : RefreshTokenDto) {st st2 : AuthState}
    (hsess : st.sessions = st2.sessions) (hid : st.nextId = st2.nextId) :
    (updateRefreshToken p st).2.sessions = (updateRefreshToken p st2).2.sessions := by
  cases hfind : st2.sessions.find? (fun s => s.userId == p.userId) with
  | none =>
    rw [updateRefreshToken_sessions_none (by rw [hsess]; exact hfind),
        updateRefreshToken_sessions_none hfind, hsess, hid]
  | some c =>
    rw [updateRefreshToken_sessions_some (by rw [hsess]; exact hfind),
        updateRefreshToken_sessions_some hfind, hsess, hid]

/-- The session table produced by `updateTokens` depends only on the input
table and the two counters. -/
lemma updateTokens_sessions_congr (cfg : JwtAuthConfig) (now : Nat) (p : AccessTokenDto)
    {st st2 : AuthState} (hsess : st.sessions = st2.sessions)
    (hid : st.nextId = st2.nextId) (huuid : st.nextUuid = st2.nextUuid) :
    (updateTokens cfg now p st).2.sessions = (updateTokens cfg now p st2).2.sessions := by
  rw [updateTokens_state_eq, updateTokens_state_eq, huuid]
  exact updateRefreshToken_sessions_congr _ hsess hid

/-- C4: when `refreshToken` is given a token that verifies as a valid
refresh credential but whose embedded session id matches no stored
session, the operation does not fail: the session-lookup result is unused
and the flow proceeds to the user-details RPC and re-issues a token pair
via `updateTokens` regardless. -/
theorem C4_refresh_tolerates_missing_session (cfg : JwtAuthConfig) (now : Nat)
    (j : Jwt) (sid : String) (u : RpcUser) (st : AuthState)
    (hs : j.secret = cfg.secret) (hexp : now < j.exp)
    (hp : j.payload = TokenPayload.refresh sid)
    (hmiss : st.sessions.find? (fun s => s.tokenId == sid) = none) :
    (refreshToken cfg now (TokenStr.signed j) (RpcReply.reply u) st).1 =
      Except.ok none ∧
    (refreshToken cfg now (TokenStr.signed j) (RpcReply.reply u) st).2.sessions =
      (updateTokens cfg now { userId := u.id, email := u.email } st).2.sessions := by
  have hv : verifyToken cfg now (TokenStr.signed j) = Except.ok j.payload :=
    verifyToken_signed_ok hs hexp
  unfold refreshToken
  rw [if_neg (by simp)]
  rw [hv, hp]
  refine ⟨rfl, ?_⟩
  exact updateTokens_sessions_congr cfg now _ (by simp [getTokenById, sessionFindOneByTokenId])
    (by simp [getTokenById, sessionFindOneByTokenId])
    (by simp [getTokenById, sessionFindOneByTokenId])

/-- Witness for C4: the refresh JWT `jwtMiss0` addresses session id
`uuid-9`, which the state `issued0.2` (holding only `uuid-0`) does not
contain; the call still succeeds and rotates. -/
theorem C4_refresh_tolerates_missing_session_witness :
    jwt0.secret = cfg0.secret ∧ (1 : Nat) < jwt0.exp ∧
    jwt0.payload = TokenPayload.refresh "uuid-0" ∧
    st0.sessions.find? (fun s => s.tokenId == "uuid-0") = none ∧
    ((refreshToken cfg0 1 (TokenStr.signed jwt0)
        (RpcReply.reply { id := "u1", email := "a@x.com" }) st0).1 = Except.ok none ∧
      (refreshToken cfg0 1 (TokenStr.signed jwt0)
        (RpcReply.reply { id := "u1", email := "a@x.com" }) st0).2.sessions =
        (updateTokens cfg0 1 { userId := "u1", email := "a@x.com" } st0).2.sessions) :=
  ⟨by decide, by decide, by decide, by decide,
   C4_refresh_tolerates_missing_session cfg0 1 jwt0 "uuid-0"
     { id := "u1", email := "a@x.com" } st0 (by decide) (by decide) (by decide) (by decide)⟩

/-- Witness for C1 at a concrete run: issue for `u1`, refresh with the
issued refresh token, issue for `u2`, starting from the empty state. -/
theorem C1_single_session_invariant_witness :
    sessionInv (runOps cfg0
      [AuthOp.issue 0 { userId := "u1", email := "a@x.com" },
       AuthOp.refreshOp 1 issued0.1._rt (RpcReply.reply { id := "u1", email := "a@x.com" }),
       AuthOp.issue 2 { userId := "u2", email := "b@x.com" }] st0) :=
  C1_single_session_invariant cfg0 _ st0 (by
    intro u
    simp [sessionsFor, st0])

/-- Rows kept by a filter that never drops a row satisfying `q` are
exactly the `q`-rows of the original list. -/
lemma filter_filter_of_imp {α} {p q : α → Bool} {l : List α}
    (h : ∀ s ∈ l, q s = true → p s = true) :
    (l.filter p).filter q = l.filter q := by
  induction l with
  | nil => rfl
  | cons x xs ih =>
    have ih2 := ih (fun s hs hq => h s (List.mem_cons_of_mem _ hs) hq)
    cases hp : p x with
    | true =>
      cases hq : q x with
      | true => simp [List.filter_cons, hp, hq, ih2]
      | false => simp [List.filter_cons, hp, hq, ih2]
    | false =>
      cases hq : q x with
      | true => exact absurd (h x (List.mem_cons_self x xs) hq) (by simp [hp])
      | false => simp [List.filter_cons, hp, hq, ih2]

/-- C8: `invalidate` (`deleteRefreshToken`) is idempotent and never
errors: it is a total function returning the count of rows destroyed;
calling it twice in a row leaves the same session table as calling it
once, with the second call destroying zero rows; and when no session
exists for the user the call is a no-op on the table and destroys zero
rows. -/
theorem C8_invalidate_idempotent (userId : String) (st : AuthState) :
    (deleteRefreshToken userId (deleteRefreshToken userId st).2).1 = 0 ∧
    (deleteRefreshToken userId (deleteRefreshToken userId st).2).2.sessions =
      (deleteRefreshToken userId st).2.sessions ∧
    (st.sessions.find? (fun s => s.userId == userId) = none →
      (deleteRefreshToken userId st).1 = 0 ∧
      (deleteRefreshToken userId st).2.sessions = st.sessions) := by
  refine ⟨?_, ?_, ?_⟩
  · unfold deleteRefreshToken sessionDestroyByUserId
    simp only [List.filter_filter]
    have : ∀ s : Session,
        ((s.userId == userId) && (s.userId != userId)) = false := by
      intro s
      cases h : s.userId == userId <;> simp [bne, h]
    rw [List.filter_congr (fun s _ => this s)]
    simp
  · unfold deleteRefreshToken sessionDestroyByUserId
    simp only [List.filter_filter]
    refine List.filter_congr ?_
    intro s _
    cases h : s.userId == userId <;> simp [bne, h]
  · intro hnone
    have hall := List.find?_eq_none.mp hnone
    constructor
    · unfold deleteRefreshToken sessionDestroyByUserId
      simp only
      rw [List.filter_eq_nil_iff.mpr hall]
      rfl
    · unfold deleteRefreshToken sessionDestroyByUserId
      simp only
      refine List.filter_eq_self.mpr ?_
      intro s hs
      have := hall s hs
      simp only [bne]
      simpa using this

/-- Witness for C8's no-session clause at the concrete empty state. -/
theorem C8_invalidate_idempotent_witness :
    (deleteRefreshToken "u1" st0).1 = 0 ∧
    (deleteRefreshToken "u1" st0).2.sessions = st0.sessions :=
  (C8_invalidate_idempotent "u1" st0).2.2 (by decide)

/-- C2 (code bug evaluation): at the §8 scenario input — a freshly issued
valid refresh token for `u1`, with the user-details reply arriving — the
call does rotate the session (the old token id `uuid-0` is no longer
resolvable and the new id `uuid-1` is), but `refreshToken` itself resolves
with no token pair: the `{ _at, _rt }` pair is built and returned inside
the bus-subscription callback, where it is discarded, so nothing reaches
the caller. -/
theorem C2_refresh_returns_no_pair :
    (refreshToken cfg0 1 issued0.1._rt
        (RpcReply.reply { id := "u1", email := "a@x.com" }) issued0.2).1 =
      Except.ok none ∧
    (getTokenById (some "uuid-0")
        (refreshToken cfg0 1 issued0.1._rt
          (RpcReply.reply { id := "u1", email := "a@x.com" }) issued0.2).2).1 = none ∧
    (getTokenById (some "uuid-1")
        (refreshToken cfg0 1 issued0.1._rt
          (RpcReply.reply { id := "u1", email := "a@x.com" }) issued0.2).2).1 =
      some { id := 1, userId := "u1", tokenId := "uuid-1" } := by decide

/-- `updateTokens` never touches the list of issued RPC calls. -/
lemma updateTokens_rpcCalls (cfg : JwtAuthConfig) (now : Nat) (p : AccessTokenDto)
    (st : AuthState) : (updateTokens cfg now p st).2.rpcCalls = st.rpcCalls := by
  rw [updateTokens_state_eq]
  unfold updateRefreshToken sessionFindOneByUserId sessionDestroyById sessionCreate
  cases hfind : st.sessions.find? (fun s => s.userId == p.userId) <;> simp [hfind]

/-- C9 counterexample: the `get_user_by_id` call issued by `refreshToken`
at the concrete §8 scenario carries no timeout, and with no reply arriving
it is still pending after a year of milliseconds — it never resolves to an
`RpcTimeout` failure. -/
theorem C9_counterexample :
    (refreshToken cfg0 1 issued0.1._rt RpcReply.noReply issued0.2).2.rpcCalls =
      [{ topic := "get_user_by_id", timeoutMs := none }] ∧
    rpcOutcomeNoReply { topic := "get_user_by_id", timeoutMs := none } 31536000000 =
      RpcOutcome.pending := by decide

/-- C9 amended: every RPC call newly issued by `refreshToken` (the
`get_user_by_id` request) has no timeout attached, and therefore, when no
matching reply arrives, remains pending after any elapsed time instead of
resolving to a timeout failure. -/
theorem C9_rpc_never_times_out (cfg : JwtAuthConfig) (now : Nat) (tok : TokenStr)
    (reply : RpcReply) (st : AuthState) (c : RpcCall) (elapsed : Nat)
    (hc : c ∈ (refreshToken cfg now tok reply st).2.rpcCalls)
    (hnew : c ∉ st.rpcCalls) :
    c.timeoutMs = none ∧ rpcOutcomeNoReply c elapsed = RpcOutcome.pending := by
  have hcall : c = getUserByIdCall := by
    unfold refreshToken at hc
    by_cases he : tok = TokenStr.empty
    · simp [he] at hc
      exact absurd hc hnew
    · simp only [he, if_neg, ite_false] at hc
      rcases hv : verifyToken cfg now tok with e | payload
      all_goals rw [hv] at hc
      · exact absurd hc hnew
      · simp only at hc
        cases reply with
        | reply u =>
          simp only [updateTokens_rpcCalls] at hc
          simp [getTokenById, sessionFindOneByTokenId] at hc
          rcases hc with hold | hnewc
          · exact absurd hold hnew
          · exact hnewc
        | noReply =>
          simp [getTokenById, sessionFindOneByTokenId] at hc
          rcases hc with hold | hnewc
          · exact absurd hold hnew
          · exact hnewc
  subst hcall
  exact ⟨rfl, rfl⟩

/-- Witness for the amended C9: the call recorded by the concrete §8
refresh scenario is `getUserByIdCall`, absent from the prior state, with
no timeout and still pending after a day of milliseconds. -/
theorem C9_rpc_never_times_out_witness :
    getUserByIdCall.timeoutMs = none ∧
    rpcOutcomeNoReply getUserByIdCall 86400000 = RpcOutcome.pending :=
  C9_rpc_never_times_out cfg0 1 issued0.1._rt RpcReply.noReply issued0.2
    getUserByIdCall 86400000 (by decide) (by decide)

/-- C10: for a user `u2` distinct from the user being operated on,
issuing/rotating a token pair (`updateTokens`) and invalidating a session
(`deleteRefreshToken`) leave `u2`'s session rows exactly as they were —
deletion is keyed to the found session's row id (unique by the primary-key
property, stated as `Nodup` of the ids) or to the operated user's
`userId` — and the only row `updateTokens` adds is the single new row for
the operated user. -/
theorem C10_frame_other_users_untouched (cfg : JwtAuthConfig) (now : Nat)
    (p : AccessTokenDto) (userId u2 : String) (st : AuthState)
    (hnodup : (st.sessions.map (fun s => s.id)).Nodup)
    (h1 : u2 ≠ p.userId) (h2 : u2 ≠ userId) :
    (updateTokens cfg now p st).2.sessions.filter (fun s => s.userId == u2) =
      st.sessions.filter (fun s => s.userId == u2) ∧
    (∀ s ∈ (updateTokens cfg now p st).2.sessions,
      s ∈ st.sessions ∨
        s = { id := st.nextId, userId := p.userId, tokenId := mkUuid st.nextUuid }) ∧
    (deleteRefreshToken userId st).2.sessions.filter (fun s => s.userId == u2) =
      st.sessions.filter (fun s => s.userId == u2) := by
  have hbu : (p.userId == u2) = false := by simp [Ne.symm h1]
  refine ⟨?_, ?_, ?_⟩
  · rw [updateTokens_state_eq]
    cases hfind : st.sessions.find? (fun s => s.userId == p.userId) with
    | none =>
      rw [updateRefreshToken_sessions_none hfind, List.filter_append]
      simp [hbu]
    | some c =>
      rw [updateRefreshToken_sessions_some hfind, List.filter_append]
      have himp : ∀ s ∈ st.sessions, (s.userId == u2) = true → (s.id != c.id) = true := by
        intro s hs hq
        have hsu : s.userId = u2 := by simpa using hq
        have hcu : c.userId = p.userId := by
          have := List.find?_some hfind
          simpa using this
        have hcm : c ∈ st.sessions := List.mem_of_find?_eq_some hfind
        have hne : s.id ≠ c.id := by
          intro hid
          have hsc : s = c := List.inj_on_of_nodup_map hnodup hs hcm hid
          rw [hsc, hcu] at hsu
          exact h1 hsu.symm
        simpa using hne
      rw [filter_filter_of_imp himp]
      simp [hbu]
  · rw [updateTokens_state_eq]
    cases hfind : st.sessions.find? (fun s => s.userId == p.userId) with
    | none =>
      rw [updateRefreshToken_sessions_none hfind]
      intro s hs
      rcases List.mem_append.mp hs with hl | hr
      · exact Or.inl hl
      · simpa using Or.inr (List.mem_singleton.mp hr)
    | some c =>
      rw [updateRefreshToken_sessions_some hfind]
      intro s hs
      rcases List.mem_append.mp hs with hl | hr
      · exact Or.inl (List.mem_filter.mp hl).1
      · simpa using Or.inr (List.mem_singleton.mp hr)
  · unfold deleteRefreshToken sessionDestroyByUserId
    simp only
    refine filter_filter_of_imp ?_
    intro s _ hq
    have hsu : s.userId = u2 := by simpa using hq
    rw [hsu]
    simp [h2]

/-- Concrete state holding one session each for users `u1` and `u3`. -/
def stw0 : AuthState :=
  { sessions := [{ id := 0, userId := "u1", tokenId := "uuid-0" },
                 { id := 1, userId := "u3", tokenId := "uuid-1" }],
    nextId := 2, nextUuid := 2, log := [], rpcCalls := [] }

/-- Witness for C10 at a concrete two-user state: operating on `u1`
(issue) and `u1` (invalidate) leaves `u3`'s row untouched. -/
theorem C10_frame_other_users_untouched_witness :
    ((updateTokens cfg0 4 { userId := "u1", email := "a@x.com" } stw0).2.sessions.filter
        (fun s => s.userId == "u3") =
      stw0.sessions.filter (fun s => s.userId == "u3") ∧
    (∀ s ∈ (updateTokens cfg0 4 { userId := "u1", email := "a@x.com" } stw0).2.sessions,
      s ∈ stw0.sessions ∨
        s = { id := stw0.nextId, userId := "u1", tokenId := mkUuid stw0.nextUuid }) ∧
    (deleteRefreshToken "u1" stw0).2.sessions.filter (fun s => s.userId == "u3") =
      stw0.sessions.filter (fun s => s.userId == "u3")) :=
  C10_frame_other_users_untouched cfg0 4 { userId := "u1", email := "a@x.com" }
    "u1" "u3" stw0 (by decide) (by decide) (by decide)
